import Mathlib

/-!
# GalSim profile-rendering core: a shallow embedding

This file embeds the data model and operations of the GalSim
surface-brightness-profile subsystem in Lean 4 and proves properties of the
embedding.  The repository sources available here are the boost.python
binding layer (`pysrc/SBAiry.cpp`, `pysrc/SBExponential.cpp`), the version
consistency test (`tests/test_version.cpp`), a tabulated SED data file
(`examples/data/CWW_Sbc_ext.sed`) and the chromatic-layer documentation.
The C++ implementation files of the profile core are not among the sources,
so the core operations are modelled from the specification, faithful to its
words; the binding files fix the constructor/accessor signatures, and the
data file is embedded verbatim.
-/

namespace GalSim

/-- Position in the 2-D image plane (also used for spatial frequencies). -/
structure Pos where
  x : ℚ
  y : ℚ
deriving DecidableEq, Repr

/-- Modelled from the spec (§3, §6): the accuracy-configuration record
`GSParams` with the recognized options listed in the external-interface
contract. -/
structure GSParams where
  folding_threshold : ℚ
  maxk_threshold : ℚ
  kvalue_accuracy : ℚ
  integration_relerr : ℚ
  integration_abserr : ℚ
  maximum_fft_size : ℕ
deriving DecidableEq, Repr

/-- Default accuracy parameters, used by witnesses. -/
def defaultGSParams : GSParams :=
  { folding_threshold := 5 / 1000
    maxk_threshold := 1 / 1000
    kvalue_accuracy := 1 / 100000
    integration_relerr := 1 / 10000
    integration_abserr := 1 / 1000000
    maximum_fft_size := 4096 }

/-- Modelled from the spec (§2, §4.1): the shape parameters of the analytic
profile primitives named there (Gaussian, Exponential, Airy, Sersic). -/
inductive Shape where
  | gaussian (sigma : ℚ)
  | exponential (scale_radius : ℚ)
  | airy (lam_over_diam : ℚ) (obscuration : ℚ)
  | sersic (n : ℚ) (half_light_radius : ℚ)
deriving DecidableEq, Repr

/-- Modelled from the spec (§3): "shape parameters must lie within each
primitive's valid domain (e.g., Sersic index > 0, Airy obscuration in
[0,1))"; scale parameters are positive. -/
def Shape.inDomain : Shape → Bool
  | .gaussian sigma => 0 < sigma
  | .exponential scale_radius => 0 < scale_radius
  | .airy lam_over_diam obscuration =>
      0 < lam_over_diam && 0 ≤ obscuration && obscuration < 1
  | .sersic n half_light_radius => 0 < n && 0 < half_light_radius

/-- Modelled from the spec (§3, §4.2): the decoration applied by a
Transformation node — a 2×2 matrix, an offset and a flux multiplier. -/
structure AffineMap where
  mA : ℚ
  mB : ℚ
  mC : ℚ
  mD : ℚ
  dx : ℚ
  dy : ℚ
  fluxScale : ℚ
deriving DecidableEq, Repr

/-- Determinant of the 2×2 matrix part. -/
def AffineMap.det (t : AffineMap) : ℚ := t.mA * t.mD - t.mB * t.mC

/-- Absolute value of the Jacobian determinant. -/
def AffineMap.absdet (t : AffineMap) : ℚ := |t.det|

/-- Forward application of the matrix part (no offset). -/
def AffineMap.fwd (t : AffineMap) (p : Pos) : Pos :=
  ⟨t.mA * p.x + t.mB * p.y, t.mC * p.x + t.mD * p.y⟩

/-- Application of the transpose of the matrix part. -/
def AffineMap.fwdT (t : AffineMap) (p : Pos) : Pos :=
  ⟨t.mA * p.x + t.mC * p.y, t.mB * p.x + t.mD * p.y⟩

/-- Inverse application of the matrix part (adjugate over determinant). -/
def AffineMap.inv (t : AffineMap) (p : Pos) : Pos :=
  ⟨(t.mD * p.x - t.mB * p.y) / t.det, (-t.mC * p.x + t.mA * p.y) / t.det⟩

/-- Modelled from the spec (§3): "composes by matrix/offset/flux
combination, not by re-wrapping".  `compose t2 t1` is "apply `t1`, then
`t2`": the matrices multiply, the offset of `t1` is pushed through `t2`,
and the flux multipliers multiply. -/
def AffineMap.compose (t2 t1 : AffineMap) : AffineMap :=
  { mA := t2.mA * t1.mA + t2.mB * t1.mC
    mB := t2.mA * t1.mB + t2.mB * t1.mD
    mC := t2.mC * t1.mA + t2.mD * t1.mC
    mD := t2.mC * t1.mB + t2.mD * t1.mD
    dx := t2.mA * t1.dx + t2.mB * t1.dy + t2.dx
    dy := t2.mC * t1.dx + t2.mD * t1.dy + t2.dy
    fluxScale := t2.fluxScale * t1.fluxScale }

/-- The identity affine map scaled by a pure flux multiplier `k`. -/
def AffineMap.fluxOnly (k : ℚ) : AffineMap :=
  { mA := 1, mB := 0, mC := 0, mD := 1, dx := 0, dy := 0, fluxScale := k }

/-- Modelled from the spec (§2, §3): the profile expression tree.  A leaf
primitive carries its shape parameters, a radial surface-brightness
function of the squared radius, the radius bounding its defined support,
its flux and its accuracy parameters; the combinators are Sum,
Convolution and Transformation. -/
inductive SBProfile where
  | prim (shape : Shape) (radial : ℚ → ℚ) (maxR : ℚ) (flux : ℚ) (gsparams : GSParams)
  | sum (children : List SBProfile)
  | conv (children : List SBProfile)
  | transform (child : SBProfile) (t : AffineMap)

/-- Modelled from the spec (§7): the typed error raised when constructing a
primitive with out-of-domain shape parameters. -/
inductive ConstructionError where
  | invalidArgument (shape : Shape)
deriving DecidableEq, Repr

/-- Modelled from the spec (§4.1, §7): factory operation for a primitive —
out-of-domain shape parameters fail with an `InvalidArgument` construction
error, in-domain parameters succeed. -/
def mkPrimitive (s : Shape) (radial : ℚ → ℚ) (maxR : ℚ) (flux : ℚ)
    (gsparams : GSParams) : Except ConstructionError SBProfile :=
  if s.inDomain then .ok (.prim s radial maxR flux gsparams)
  else .error (.invalidArgument s)

/-- Modelled from the spec (§4.1) with the constructor signature fixed by
the binding `pysrc/SBAiry.cpp`: `SBAiry(lam_over_diam, obscuration, flux,
gsparams)`.  The radial profile itself has no closed rational form; the
factory validates the domain and records the parameters. -/
def mkSBAiry (lam_over_diam obscuration flux : ℚ) (gsparams : GSParams)
    (radial : ℚ → ℚ) (maxR : ℚ) : Except ConstructionError SBProfile :=
  mkPrimitive (.airy lam_over_diam obscuration) radial maxR flux gsparams

/-- Modelled from the spec (§4.1): Sersic factory; the Sersic index must be
positive. -/
def mkSBSersic (n half_light_radius flux : ℚ) (gsparams : GSParams)
    (radial : ℚ → ℚ) (maxR : ℚ) : Except ConstructionError SBProfile :=
  mkPrimitive (.sersic n half_light_radius) radial maxR flux gsparams

/-- Whether an `Except` result is a success. -/
def exceptOk {ε α : Type} : Except ε α → Bool
  | .ok _ => true
  | .error _ => false

mutual

/-- Modelled from the spec (§4.1, §4.2): real-space surface brightness.
A primitive evaluates its radial function inside its defined support and
returns zero outside, never an error; a Sum adds its children's values; a
Convolution has no direct real-space form here (the spec prescribes an
inverse FFT), so its real-space value is modelled through its k-space
content and set to 0 at this level; a Transformation pulls the query point
back through the inverse map and scales the amplitude by the flux factor
over the Jacobian determinant. -/
def SBProfile.xValue : SBProfile → Pos → ℚ
  | .prim _ radial maxR _ _, p =>
      if p.x ^ 2 + p.y ^ 2 ≤ maxR ^ 2 then radial (p.x ^ 2 + p.y ^ 2) else 0
  | .sum cs, p => xValueSum cs p
  | .conv _, _ => 0
  | .transform c t, p =>
      t.fluxScale / t.absdet * c.xValue (t.inv ⟨p.x - t.dx, p.y - t.dy⟩)

/-- Sum of the real-space values of a list of children. -/
def xValueSum : List SBProfile → Pos → ℚ
  | [], _ => 0
  | c :: cs, p => c.xValue p + xValueSum cs p

end

mutual

/-- Modelled from the spec (§4.1, §4.2): Fourier-space value.  A primitive
evaluates its tabulated/analytic k-space function; a Sum adds its
children's k-space values; a Convolution multiplies them (convolution
theorem); a Transformation pushes the spatial frequency through the
transpose map and scales the amplitude by the Jacobian determinant and the
flux factor. -/
def SBProfile.kValue : SBProfile → Pos → ℚ
  | .prim _ radial _ flux _, k => flux * radial (-(k.x ^ 2 + k.y ^ 2))
  | .sum cs, k => kValueSum cs k
  | .conv cs, k => kValueProd cs k
  | .transform c t, k => t.fluxScale * t.absdet * c.kValue (t.fwdT k)

/-- Sum of the k-space values of a list of children. -/
def kValueSum : List SBProfile → Pos → ℚ
  | [], _ => 0
  | c :: cs, k => c.kValue k + kValueSum cs k

/-- Product of the k-space values of a list of children. -/
def kValueProd : List SBProfile → Pos → ℚ
  | [], _ => 1
  | c :: cs, k => c.kValue k * kValueProd cs k

end

mutual

/-- Modelled from the spec (§4.2, §8): total flux.  A primitive declares
its flux parameter; a Sum adds its children's fluxes; a Convolution
multiplies them; a Transformation scales the child's flux by its flux
multiplier. -/
def SBProfile.getFlux : SBProfile → ℚ
  | .prim _ _ _ flux _ => flux
  | .sum cs => fluxSum cs
  | .conv cs => fluxProd cs
  | .transform c t => t.fluxScale * c.getFlux

/-- Sum of the fluxes of a list of children. -/
def fluxSum : List SBProfile → ℚ
  | [] => 0
  | c :: cs => c.getFlux + fluxSum cs

/-- Product of the fluxes of a list of children. -/
def fluxProd : List SBProfile → ℚ
  | [] => 1
  | c :: cs => c.getFlux * fluxProd cs

end

/-- A rendered image: rows of pixel flux values. -/
abbrev Image := List (List ℚ)

/-- Modelled from the spec (§4.4, §6): the renderer samples the profile's
surface brightness at the pixel centers of an `nx × ny` grid with the given
pixel scale and scales by the pixel area. -/
def drawImage (p : SBProfile) (scale : ℚ) (nx ny : ℕ) : Image :=
  (List.range ny).map fun j => (List.range nx).map fun i =>
    p.xValue ⟨scale * i, scale * j⟩ * scale ^ 2

/-- Pointwise scaling of an image by a scalar flux factor. -/
def scaleImage (k : ℚ) (img : Image) : Image :=
  img.map (List.map (k * ·))

mutual

/-- Modelled from the spec (§7): pre-draw validation walks the profile tree
and returns the path (child indices from the root) and shape of the first
primitive whose shape parameters are out of domain, if any. -/
def findInvalid : SBProfile → Option (List ℕ × Shape)
  | .prim s _ _ _ _ => if s.inDomain then none else some ([], s)
  | .sum cs => (findInvalidList cs).map fun r => (r.1 :: r.2.1, r.2.2)
  | .conv cs => (findInvalidList cs).map fun r => (r.1 :: r.2.1, r.2.2)
  | .transform c _ => (findInvalid c).map fun r => (0 :: r.1, r.2)

/-- First invalid primitive among a list of children: its child index, the
path below that child, and its shape. -/
def findInvalidList : List SBProfile → Option (ℕ × List ℕ × Shape)
  | [] => none
  | c :: cs =>
      match findInvalid c with
      | some (path, s) => some (0, path, s)
      | none => (findInvalidList cs).map fun r => (r.1 + 1, r.2.1, r.2.2)

end

mutual

/-- The shape of the primitive found at a path of child indices, if the
path leads to a primitive. -/
def nodeShapeAt : SBProfile → List ℕ → Option Shape
  | .prim s _ _ _ _, [] => some s
  | .sum cs, i :: rest => nodeShapeAtList cs i rest
  | .conv cs, i :: rest => nodeShapeAtList cs i rest
  | .transform c _, 0 :: rest => nodeShapeAt c rest
  | _, _ => none

/-- The shape of the primitive found below the `i`-th child of a list. -/
def nodeShapeAtList : List SBProfile → ℕ → List ℕ → Option Shape
  | [], _, _ => none
  | c :: _, 0, rest => nodeShapeAt c rest
  | _ :: cs, i + 1, rest => nodeShapeAtList cs i rest

end

/-- Modelled from the spec (§7): the typed error raised by a failed draw,
identifying the offending profile-tree node by its path and shape. -/
structure DrawError where
  path : List ℕ
  shape : Shape
deriving DecidableEq, Repr

/-- Accumulate the rendered values of a profile into a caller-provided
buffer, pixel by pixel. -/
def drawInto (p : SBProfile) (scale : ℚ) (buf : Image) : Image :=
  buf.mapIdx fun j row => row.mapIdx fun i v =>
    v + p.xValue ⟨scale * i, scale * j⟩ * scale ^ 2

/-- Modelled from the spec (§6, §7): a draw call over a caller-provided
output buffer.  The tree is validated before any pixel is written; on
failure the buffer is returned untouched together with a typed error
naming the offending node, otherwise the rendered values are accumulated
into the buffer. -/
def draw (p : SBProfile) (scale : ℚ) (buf : Image) : Image × Option DrawError :=
  match findInvalid p with
  | some (path, s) => (buf, some ⟨path, s⟩)
  | none => (drawInto p scale buf, none)

/-- Modelled from the spec (§3): nested transformations compose by
matrix/offset/flux combination, not by re-wrapping: applying an affine map
to an already-transformed profile combines the two maps on the same child. -/
def SBProfile.applyTransform (p : SBProfile) (t : AffineMap) : SBProfile :=
  match p with
  | .transform c t0 => .transform c (t.compose t0)
  | _ => .transform p t

/-- Modelled from the spec (§3, §6): an SED is consumed as an opaque
callable (wavelength → value) plus a validity interval. -/
structure SED where
  f : ℚ → ℚ
  blue_limit : ℚ
  red_limit : ℚ

/-- Modelled from the spec (§3, §6): a bandpass is consumed as an opaque
throughput callable plus a validity interval. -/
structure Bandpass where
  throughput : ℚ → ℚ
  blue_limit : ℚ
  red_limit : ℚ

/-- Modelled from the spec (§4.3): the numeric wavelength integral of a
product of two spectral functions over `[lo, hi]`, as an `n`-point
quadrature sum. -/
def integrateProduct (f g : ℚ → ℚ) (lo hi : ℚ) (n : ℕ) : ℚ :=
  let h := (hi - lo) / n
  h * ((List.range n).map fun i => f (lo + i * h) * g (lo + i * h)).sum

/-- Modelled from the spec (§4.3): the scalar flux factor ∫ SED·bandpass dλ
of the separable chromatic case, taken over the overlap interval
`[max(blue_limits), min(red_limits)]`. -/
def sedBandpassFlux (s : SED) (b : Bandpass) (nq : ℕ) : ℚ :=
  integrateProduct s.f b.throughput (max s.blue_limit b.blue_limit)
    (min s.red_limit b.red_limit) nq

/-- Modelled from the spec (§3, §4.3): a separable chromatic object — a
spatial profile multiplied by an SED. -/
structure ChromaticObject where
  profile : SBProfile
  sed : SED

/-- Modelled from the spec (§6): `multiply(profile, SED)` forms the
separable chromatic object. -/
def chromaticMultiply (p : SBProfile) (s : SED) : ChromaticObject := ⟨p, s⟩

/-- Modelled from the spec (§4.3): drawing a separable chromatic object
through a bandpass integrates the SED·bandpass scaling analytically before
rendering, drawing a single effective profile — the spatial profile scaled
by the flux factor. -/
def drawChromatic (c : ChromaticObject) (b : Bandpass) (scale : ℚ)
    (nq nx ny : ℕ) : Image :=
  drawImage (.transform c.profile (AffineMap.fluxOnly (sedBandpassFlux c.sed b nq)))
    scale nx ny

/-- Modelled from the spec: the compile-time version macro `GALSIM_MAJOR`
from `GalSim.h`; the header itself is not among the sources, only
`tests/test_version.cpp`, so the concrete value is a model choice. -/
def GALSIM_MAJOR : ℕ := 1

/-- Modelled from the spec: the compile-time version macro `GALSIM_MINOR`
from `GalSim.h`. -/
def GALSIM_MINOR : ℕ := 5

/-- Modelled from the spec: the compile-time version macro
`GALSIM_REVISION` from `GalSim.h`. -/
def GALSIM_REVISION : ℕ := 1

/-- Modelled from the spec: `galsim::major_version()` returns the
compile-time major version constant. -/
def major_version : ℕ := GALSIM_MAJOR

/-- Modelled from the spec: `galsim::minor_version()` returns the
compile-time minor version constant. -/
def minor_version : ℕ := GALSIM_MINOR

/-- Modelled from the spec: `galsim::revision()` returns the compile-time
revision constant. -/
def revision : ℕ := GALSIM_REVISION

/-- Modelled from the spec: `galsim::version()` returns the version as the
string "major.minor.revision". -/
def version : String :=
  toString major_version ++ "." ++ toString minor_version ++ "." ++ toString revision

/-- Modelled from the spec: `galsim::check_version()` compares the version
constants seen by the caller's header against the library's version
functions and returns whether they all agree. -/
def check_version (hMajor hMinor hRevision : ℕ) : Bool :=
  major_version == hMajor && minor_version == hMinor && revision == hRevision

/-- The `SBExponential` class at the binding interface
(`pysrc/SBExponential.cpp`): constructed from `(scale_radius, flux,
gsparams)`; the stored state is modelled from that constructor signature. -/
structure SBExponential where
  scale_radius : ℚ
  flux : ℚ
  gsparams : GSParams
deriving DecidableEq, Repr

/-- `SBExponential::getScaleRadius`, exposed by the binding. -/
def SBExponential.getScaleRadius (s : SBExponential) : ℚ := s.scale_radius

/-- The copy constructor `bp::init<const SBExponential &>`: a memberwise
copy. -/
def SBExponential.copy (s : SBExponential) : SBExponential :=
  ⟨s.scale_radius, s.flux, s.gsparams⟩

/-- The `SBAiry` class at the binding interface (`pysrc/SBAiry.cpp`,
the unnamed source part): constructed from `(lam_over_diam, obscuration,
flux, gsparams)`. -/
structure SBAiry where
  lam_over_diam : ℚ
  obscuration : ℚ
  flux : ℚ
  gsparams : GSParams
deriving DecidableEq, Repr

/-- `SBAiry::getLamOverD`, exposed by the binding. -/
def SBAiry.getLamOverD (s : SBAiry) : ℚ := s.lam_over_diam

/-- `SBAiry::getObscuration`, exposed by the binding. -/
def SBAiry.getObscuration (s : SBAiry) : ℚ := s.obscuration

/-- The copy constructor `bp::init<const SBAiry &>`: a memberwise copy. -/
def SBAiry.copy (s : SBAiry) : SBAiry :=
  ⟨s.lam_over_diam, s.obscuration, s.flux, s.gsparams⟩

/-- Whether the first components of a sample list are strictly
increasing. -/
def strictlyIncreasingFst : List (ℚ × ℚ) → Bool
  | [] => true
  | [_] => true
  | a :: b :: rest => decide (a.1 < b.1) && strictlyIncreasingFst (b :: rest)

/-- Whether every second component of a sample list is non-negative. -/
def allNonnegSnd (rows : List (ℚ × ℚ)) : Bool :=
  rows.all fun r => decide (0 ≤ r.2)

/-- Modelled from the spec (§3): a Numeric Table is an ordered sequence of
(x, y) samples, monotonic (strictly increasing) in x; the invariant is
carried by the structure, so a table cannot exist without it. -/
structure Table where
  rows : List (ℚ × ℚ)
  increasing : strictlyIncreasingFst rows = true

/-- Modelled from the spec (§3): constructing a Numeric Table from
tabulated input validates monotonicity of the abscissae. -/
def mkTable (rows : List (ℚ × ℚ)) : Option Table :=
  if h : strictlyIncreasingFst rows = true then some ⟨rows, h⟩ else none

/-- Modelled from the spec (§3): linear interpolation over a sample list.
Below the first sample the query is resolved on the first segment; past
the last sample the last ordinate is held. -/
def interpLinear : List (ℚ × ℚ) → ℚ → ℚ
  | [], _ => 0
  | [r] , _ => r.2
  | r0 :: r1 :: rest, x =>
      if x ≤ r1.1 then r0.2 + (r1.2 - r0.2) * (x - r0.1) / (r1.1 - r0.1)
      else interpLinear (r1 :: rest) x

/-- The tabulated SED input `examples/data/CWW_Sbc_ext.sed`: its 318 data
rows as (wavelength in Angstroms, flux per Angstrom) samples, embedded
verbatim (fluxes are exact 5-decimal rationals). -/
def cww_sbc_ext_rows : List (ℚ × ℚ) := [
  (91, mkRat 77622 100000), (202, mkRat 1821046 100000), (240, mkRat 2125170 100000),
  (318, mkRat 3260641 100000), (328, mkRat 3418623 100000), (338, mkRat 3343517 100000),
  (357, mkRat 4228881 100000), (366, mkRat 6248977 100000), (385, mkRat 5016941 100000),
  (395, mkRat 7199828 100000), (414, mkRat 8679751 100000), (422, mkRat 7865794 100000),
  (430, mkRat 7495813 100000), (441, mkRat 8583556 100000), (480, mkRat 8487361 100000),
  (500, mkRat 8672352 100000), (512, mkRat 12320360 100000), (520, mkRat 11617400 100000),
  (530, mkRat 10577750 100000), (550, mkRat 8494761 100000), (560, mkRat 10910740 100000),
  (570, mkRat 12057680 100000), (610, mkRat 9438213 100000), (620, mkRat 11695100 100000),
  (630, mkRat 10925530 100000), (650, mkRat 11195620 100000), (665, mkRat 11332510 100000),
  (685, mkRat 9859990 100000), (705, mkRat 9001635 100000), (716, mkRat 11550800 100000),
  (726, mkRat 11484210 100000), (745, mkRat 10910740 100000), (755, mkRat 10718350 100000),
  (795, mkRat 10207770 100000), (805, mkRat 10263270 100000), (815, mkRat 10181870 100000),
  (835, mkRat 7939790 100000), (855, mkRat 9549207 100000), (915, mkRat 9589905 100000),
  (925, mkRat 24644430 100000), (945, mkRat 57865010 100000), (955, mkRat 69482410 100000),
  (965, mkRat 75439100 100000), (975, mkRat 22846320 100000), (985, mkRat 58456980 100000),
  (995, mkRat 57569020 100000), (1005, mkRat 75772080 100000), (1015, mkRat 75476100 100000),
  (1025, mkRat 45211660 100000), (1035, mkRat 60380880 100000), (1045, mkRat 91533260 100000),
  (1055, mkRat 87500480 100000), (1065, mkRat 70999330 100000), (1075, mkRat 79767880 100000),
  (1085, mkRat 66744550 100000), (1095, mkRat 81099800 100000), (1105, mkRat 76845030 100000),
  (1115, mkRat 73848190 100000), (1125, mkRat 64524660 100000), (1135, mkRat 78583940 100000),
  (1145, mkRat 72220270 100000), (1155, mkRat 73774190 100000), (1165, mkRat 73552200 100000),
  (1175, mkRat 49133460 100000), (1185, mkRat 69334420 100000), (1195, mkRat 53869210 100000),
  (1205, mkRat 42954780 100000), (1215, mkRat 32558320 100000), (1225, mkRat 51316350 100000),
  (1235, mkRat 67595500 100000), (1245, mkRat 71258310 100000), (1265, mkRat 61601820 100000),
  (1275, mkRat 73478200 100000), (1285, mkRat 75328110 100000), (1295, mkRat 61638810 100000),
  (1305, mkRat 60898850 100000), (1315, mkRat 72294260 100000), (1335, mkRat 62045790 100000),
  (1345, mkRat 69926390 100000), (1365, mkRat 60787860 100000), (1375, mkRat 62045790 100000),
  (1385, mkRat 61638810 100000), (1395, mkRat 49725430 100000), (1405, mkRat 50169410 100000),
  (1415, mkRat 56089110 100000), (1435, mkRat 56126100 100000), (1442, mkRat 58050000 100000),
  (1447, mkRat 58419980 100000), (1465, mkRat 52019310 100000), (1475, mkRat 51871320 100000),
  (1485, mkRat 52278300 100000), (1495, mkRat 52278300 100000), (1512, mkRat 44138720 100000),
  (1525, mkRat 45211660 100000), (1535, mkRat 38810990 100000), (1545, mkRat 39328970 100000),
  (1555, mkRat 37701050 100000), (1565, mkRat 39698950 100000), (1575, mkRat 42140820 100000),
  (1585, mkRat 43546750 100000), (1615, mkRat 42251820 100000), (1635, mkRat 42473800 100000),
  (1645, mkRat 42732790 100000), (1655, mkRat 40105930 100000), (1665, mkRat 42584800 100000),
  (1672, mkRat 38256020 100000), (1677, mkRat 43102770 100000), (1685, mkRat 43842730 100000),
  (1695, mkRat 41141870 100000), (1715, mkRat 37257070 100000), (1745, mkRat 37664050 100000),
  (1755, mkRat 39328970 100000), (1765, mkRat 36543010 100000), (1800, mkRat 38700000 100000),
  (1900, mkRat 39000000 100000), (2000, mkRat 37900000 100000), (2200, mkRat 35300000 100000),
  (2300, mkRat 34900000 100000), (2400, mkRat 34600000 100000), (2800, mkRat 34800000 100000),
  (2900, mkRat 35300000 100000), (3020, mkRat 36700000 100000), (3100, mkRat 38200000 100000),
  (3180, mkRat 40300000 100000), (3300, mkRat 44900000 100000), (3380, mkRat 49000000 100000),
  (3500, mkRat 55800000 100000), (3540, mkRat 59700000 100000), (3580, mkRat 57700000 100000),
  (3620, mkRat 56300000 100000), (3660, mkRat 59900000 100000), (3700, mkRat 67600000 100000),
  (3740, mkRat 70600000 100000), (3780, mkRat 68200000 100000), (3820, mkRat 70800000 100000),
  (3860, mkRat 76400000 100000), (3900, mkRat 77800000 100000), (3940, mkRat 76000000 100000),
  (3980, mkRat 81300000 100000), (4020, mkRat 92000000 100000), (4060, mkRat 92400000 100000),
  (4100, mkRat 88000000 100000), (4140, mkRat 90300000 100000), (4180, mkRat 93800000 100000),
  (4220, mkRat 94700000 100000), (4260, mkRat 92700000 100000), (4300, mkRat 89600000 100000),
  (4340, mkRat 89600000 100000), (4420, mkRat 96900000 100000), (4500, mkRat 101700000 100000),
  (4580, mkRat 100500000 100000), (4620, mkRat 101300000 100000), (4660, mkRat 100800000 100000),
  (4700, mkRat 99400000 100000), (4740, mkRat 101300000 100000), (4780, mkRat 100600000 100000),
  (4820, mkRat 98400000 100000), (4860, mkRat 98000000 100000), (4900, mkRat 96700000 100000),
  (4940, mkRat 96600000 100000), (4980, mkRat 98400000 100000), (5020, mkRat 97700000 100000),
  (5060, mkRat 94200000 100000), (5100, mkRat 94500000 100000), (5140, mkRat 93300000 100000),
  (5180, mkRat 91700000 100000), (5220, mkRat 92800000 100000), (5260, mkRat 92000000 100000),
  (5300, mkRat 90500000 100000), (5340, mkRat 88600000 100000), (5380, mkRat 99000000 100000),
  (5420, mkRat 94100000 100000), (5460, mkRat 96100000 100000), (5500, mkRat 94500000 100000),
  (5540, mkRat 96100000 100000), (5580, mkRat 95600000 100000), (5660, mkRat 93600000 100000),
  (5820, mkRat 90300000 100000), (5980, mkRat 88300000 100000), (6180, mkRat 87200000 100000),
  (6780, mkRat 84200000 100000), (7100, mkRat 82800000 100000), (7180, mkRat 82600000 100000),
  (7580, mkRat 81200000 100000), (8100, mkRat 79400000 100000), (8200, mkRat 79100000 100000),
  (8600, mkRat 78100000 100000), (9000, mkRat 77100000 100000), (9500, mkRat 76100000 100000),
  (9800, mkRat 75600000 100000), (10025, mkRat 75015760 100000), (10075, mkRat 73848250 100000),
  (10125, mkRat 74912300 100000), (10175, mkRat 73981260 100000), (10225, mkRat 74114270 100000),
  (10275, mkRat 74173380 100000), (10325, mkRat 73094550 100000), (10375, mkRat 72488630 100000),
  (10425, mkRat 72636410 100000), (10475, mkRat 71572360 100000), (10525, mkRat 71040340 100000),
  (10625, mkRat 69104350 100000), (10675, mkRat 68202860 100000), (10725, mkRat 68439320 100000),
  (10775, mkRat 67803840 100000), (10875, mkRat 66281650 100000), (11075, mkRat 63724970 100000),
  (11125, mkRat 63444180 100000), (11175, mkRat 62882590 100000), (11225, mkRat 62793920 100000),
  (11325, mkRat 61774210 100000), (11425, mkRat 60651040 100000), (11525, mkRat 60931830 100000),
  (11575, mkRat 60133790 100000), (11675, mkRat 59099290 100000), (11725, mkRat 59291420 100000),
  (11775, mkRat 58079580 100000), (11875, mkRat 56527830 100000), (11925, mkRat 57281540 100000),
  (11975, mkRat 55389890 100000), (12025, mkRat 56320930 100000), (12075, mkRat 55685460 100000),
  (12175, mkRat 55700230 100000), (12225, mkRat 55242100 100000), (12325, mkRat 54370170 100000),
  (12525, mkRat 52685410 100000), (12575, mkRat 52434180 100000), (12675, mkRat 51577030 100000),
  (12725, mkRat 51532700 100000), (12775, mkRat 51429240 100000), (12825, mkRat 49478480 100000),
  (12875, mkRat 50409520 100000), (12925, mkRat 49818380 100000), (12975, mkRat 50246960 100000),
  (13025, mkRat 49537590 100000), (13075, mkRat 49626260 100000), (13175, mkRat 48414420 100000),
  (13275, mkRat 47512940 100000), (13325, mkRat 47616380 100000), (13475, mkRat 46700120 100000),
  (13625, mkRat 45443950 100000), (13675, mkRat 45591730 100000), (13775, mkRat 45547390 100000),
  (13825, mkRat 45532610 100000), (13875, mkRat 45044920 100000), (13925, mkRat 43020270 100000),
  (14025, mkRat 42237000 100000), (14075, mkRat 42532570 100000), (14125, mkRat 42015330 100000),
  (14175, mkRat 42355230 100000), (14225, mkRat 41793650 100000), (14275, mkRat 41217290 100000),
  (14375, mkRat 42118780 100000), (14425, mkRat 41099060 100000), (14475, mkRat 41882320 100000),
  (14525, mkRat 41409410 100000), (14570, mkRat 41645860 100000), (14620, mkRat 40655700 100000),
  (14675, mkRat 40478360 100000), (14775, mkRat 40271460 100000), (14825, mkRat 40404470 100000),
  (14875, mkRat 40064560 100000), (14925, mkRat 40951280 100000), (14975, mkRat 40567030 100000),
  (15025, mkRat 40138460 100000), (15175, mkRat 40877380 100000), (15225, mkRat 40788710 100000),
  (15325, mkRat 40847820 100000), (15375, mkRat 40803490 100000), (15525, mkRat 40227120 100000),
  (15575, mkRat 38882280 100000), (15675, mkRat 39030070 100000), (15725, mkRat 39931560 100000),
  (15775, mkRat 37404430 100000), (15825, mkRat 37330540 100000), (15875, mkRat 37256640 100000),
  (15925, mkRat 38512820 100000), (15975, mkRat 37640890 100000), (16050, mkRat 37389650 100000),
  (16150, mkRat 37995570 100000), (16250, mkRat 36754170 100000), (16350, mkRat 38099020 100000),
  (16450, mkRat 36074360 100000), (16550, mkRat 37345310 100000), (16650, mkRat 36118700 100000),
  (16750, mkRat 36266480 100000), (16850, mkRat 35350210 100000), (16950, mkRat 35645790 100000),
  (17050, mkRat 34921640 100000), (17150, mkRat 34463500 100000), (17250, mkRat 33842810 100000),
  (17350, mkRat 32719640 100000), (17450, mkRat 32557080 100000), (17550, mkRat 31921600 100000),
  (17650, mkRat 31389570 100000), (17750, mkRat 30591530 100000), (17950, mkRat 29512700 100000),
  (18150, mkRat 28256520 100000), (18550, mkRat 26645670 100000), (18650, mkRat 25951080 100000),
  (18750, mkRat 25374710 100000), (18850, mkRat 25241710 100000), (18950, mkRat 24355000 100000),
  (19050, mkRat 24576680 100000), (19150, mkRat 24074210 100000), (19250, mkRat 23749080 100000),
  (19350, mkRat 23084050 100000), (19450, mkRat 22522460 100000), (19650, mkRat 22005210 100000),
  (19850, mkRat 21192400 100000), (20050, mkRat 20822930 100000), (20350, mkRat 19803220 100000),
  (20450, mkRat 19773660 100000), (20650, mkRat 19152960 100000), (21150, mkRat 18000230 100000),
  (21450, mkRat 17379540 100000), (21750, mkRat 16566720 100000), (22050, mkRat 15827790 100000)
]

/-- The abscissa of the first sample (the blue end of the defined
domain). -/
def frontX : List (ℚ × ℚ) → ℚ
  | [] => 0
  | r :: _ => r.1

/-! ## Helper lemmas -/

theorem xValueSum_eq (cs : List SBProfile) (p : Pos) :
    xValueSum cs p = (cs.map fun c => c.xValue p).sum := by
  induction cs with
  | nil => simp [xValueSum]
  | cons c cs ih => simp [xValueSum, ih]

theorem kValueSum_eq (cs : List SBProfile) (k : Pos) :
    kValueSum cs k = (cs.map fun c => c.kValue k).sum := by
  induction cs with
  | nil => simp [kValueSum]
  | cons c cs ih => simp [kValueSum, ih]

theorem kValueProd_eq (cs : List SBProfile) (k : Pos) :
    kValueProd cs k = (cs.map fun c => c.kValue k).prod := by
  induction cs with
  | nil => simp [kValueProd]
  | cons c cs ih => simp [kValueProd, ih]

theorem fluxSum_eq (cs : List SBProfile) :
    fluxSum cs = (cs.map fun c => c.getFlux).sum := by
  induction cs with
  | nil => simp [fluxSum]
  | cons c cs ih => simp [fluxSum, ih]

theorem exceptOk_mkPrimitive (s : Shape) (radial : ℚ → ℚ) (maxR flux : ℚ)
    (g : GSParams) :
    exceptOk (mkPrimitive s radial maxR flux g) = s.inDomain := by
  by_cases hc : s.inDomain <;> simp [mkPrimitive, exceptOk, hc]

/-! ## Claim theorems -/

/-- Claim C1: constructing a Sersic profile with index ≤ 0, or an Airy
profile with obscuration ≥ 1, fails with a typed
`ConstructionError.invalidArgument`; construction with in-domain shape
parameters (Sersic index > 0, Airy obscuration in [0,1)) succeeds. -/
theorem construction_domain_check
    (lod obsc n hlr fluxA fluxS maxRA maxRS : ℚ) (g : GSParams)
    (radA radS : ℚ → ℚ) :
    (1 ≤ obsc → mkSBAiry lod obsc fluxA g radA maxRA
      = .error (.invalidArgument (.airy lod obsc)))
    ∧ (n ≤ 0 → mkSBSersic n hlr fluxS g radS maxRS
      = .error (.invalidArgument (.sersic n hlr)))
    ∧ (exceptOk (mkSBAiry lod obsc fluxA g radA maxRA) = true
      ↔ 0 < lod ∧ 0 ≤ obsc ∧ obsc < 1)
    ∧ (exceptOk (mkSBSersic n hlr fluxS g radS maxRS) = true
      ↔ 0 < n ∧ 0 < hlr) := by
  refine ⟨?_, ?_, ?_, ?_⟩
  · intro h
    have hc : (Shape.airy lod obsc).inDomain = false := by
      simp [Shape.inDomain]
      intro _ _
      linarith
    simp [mkSBAiry, mkPrimitive, hc]
  · intro h
    have hc : (Shape.sersic n hlr).inDomain = false := by
      simp [Shape.inDomain]
      intro h1
      linarith
    simp [mkSBSersic, mkPrimitive, hc]
  · rw [mkSBAiry, exceptOk_mkPrimitive]
    simp [Shape.inDomain, and_assoc]
  · rw [mkSBSersic, exceptOk_mkPrimitive]
    simp [Shape.inDomain]

/-- Witness for C1: an Airy profile with obscuration 1 and a Sersic profile
with index −1 are rejected with the typed invalid-argument error, and
in-domain parameters are accepted. -/
theorem construction_domain_check_witness :
    mkSBAiry 2 1 1 defaultGSParams (fun _ => 0) 1
      = .error (.invalidArgument (.airy 2 1))
    ∧ mkSBSersic (-1) 1 1 defaultGSParams (fun _ => 0) 1
      = .error (.invalidArgument (.sersic (-1) 1))
    ∧ exceptOk (mkSBAiry 2 0 1 defaultGSParams (fun _ => 0) 1) = true
    ∧ exceptOk (mkSBSersic 4 1 1 defaultGSParams (fun _ => 0) 1) = true :=
  ⟨(construction_domain_check 2 1 (-1) 1 1 1 1 1 defaultGSParams
      (fun _ => 0) (fun _ => 0)).1 (by norm_num),
   (construction_domain_check 2 1 (-1) 1 1 1 1 1 defaultGSParams
      (fun _ => 0) (fun _ => 0)).2.1 (by norm_num),
   (construction_domain_check 2 0 4 1 1 1 1 1 defaultGSParams
      (fun _ => 0) (fun _ => 0)).2.2.1.mpr (by norm_num),
   (construction_domain_check 2 0 4 1 1 1 1 1 defaultGSParams
      (fun _ => 0) (fun _ => 0)).2.2.2.mpr (by norm_num)⟩

/-- Claim C2: for every Convolution combinator over children profiles and
every spatial frequency, the convolution's k-space value is the product of
the children's k-space values (convolution theorem). -/
theorem convolution_kValue_is_product (cs : List SBProfile) (k : Pos) :
    (SBProfile.conv cs).kValue k = (cs.map fun c => c.kValue k).prod := by
  simp [SBProfile.kValue, kValueProd_eq]

/-- Claim C3: for every Sum combinator over profiles A and B, the total
flux is flux(A) + flux(B), and the real-space and k-space values at every
point are the sums of the children's values there. -/
theorem sum_flux_and_values (a b : SBProfile) (p k : Pos) :
    (SBProfile.sum [a, b]).getFlux = a.getFlux + b.getFlux
    ∧ (SBProfile.sum [a, b]).xValue p = a.xValue p + b.xValue p
    ∧ (SBProfile.sum [a, b]).kValue k = a.kValue k + b.kValue k := by
  refine ⟨?_, ?_, ?_⟩ <;>
    simp [SBProfile.getFlux, SBProfile.xValue, SBProfile.kValue,
      fluxSum, xValueSum, kValueSum]

/-- Claim C6: for every profile primitive and every position outside the
primitive's defined support, real-space evaluation returns zero; the
evaluation function is total over all positions, so no error can be
raised. -/
theorem primitive_zero_outside_support (s : Shape) (radial : ℚ → ℚ)
    (maxR flux : ℚ) (g : GSParams) (p : Pos)
    (h : maxR ^ 2 < p.x ^ 2 + p.y ^ 2) :
    (SBProfile.prim s radial maxR flux g).xValue p = 0 := by
  simp only [SBProfile.xValue]
  rw [if_neg (by linarith)]

/-- Witness for C6: the point (2, 0) lies outside a support radius of 1,
and evaluation there is zero. -/
theorem primitive_zero_outside_support_witness :
    (SBProfile.prim (.exponential 1) (fun _ => 1) 1 1 defaultGSParams).xValue
      ⟨2, 0⟩ = 0 :=
  primitive_zero_outside_support (.exponential 1) (fun _ => 1) 1 1
    defaultGSParams ⟨2, 0⟩ (by norm_num)

/-- Claim C9: the version reporting is consistent — `major_version`,
`minor_version` and `revision` return the compile-time constants, `version`
is exactly the string "major.minor.revision" formed from them, and
`check_version` returns true exactly when the header constants agree with
the library's versions. -/
theorem version_consistency :
    major_version = GALSIM_MAJOR
    ∧ minor_version = GALSIM_MINOR
    ∧ revision = GALSIM_REVISION
    ∧ version = toString GALSIM_MAJOR ++ "." ++ toString GALSIM_MINOR
        ++ "." ++ toString GALSIM_REVISION
    ∧ ∀ hM hm hr : ℕ, check_version hM hm hr = true
        ↔ hM = GALSIM_MAJOR ∧ hm = GALSIM_MINOR ∧ hr = GALSIM_REVISION := by
  refine ⟨rfl, rfl, rfl, rfl, ?_⟩
  intro hM hm hr
  simp only [check_version, major_version, minor_version, revision,
    GALSIM_MAJOR, GALSIM_MINOR, GALSIM_REVISION, Bool.and_eq_true, beq_iff_eq]
  omega

/-- Witness for C9: the consistency checks evaluate as expected at the
concrete version constants. -/
theorem version_consistency_witness :
    check_version 1 5 1 = true ∧ version = "1.5.1" :=
  ⟨(version_consistency.2.2.2.2 1 5 1).mpr (by norm_num [GALSIM_MAJOR, GALSIM_MINOR, GALSIM_REVISION]),
   version_consistency.2.2.2.1⟩

/-- Claim C10: constructor-accessor round-trip at the binding interface —
`getScaleRadius` returns the `scale_radius` argument of `SBExponential`,
`getLamOverD` and `getObscuration` return the `lam_over_diam` and
`obscuration` arguments of `SBAiry`, and copy-constructed objects return
the same accessor values as the originals. -/
theorem binding_accessor_roundtrip (r f1 l o f2 : ℚ) (g1 g2 : GSParams) :
    (SBExponential.mk r f1 g1).getScaleRadius = r
    ∧ (SBAiry.mk l o f2 g2).getLamOverD = l
    ∧ (SBAiry.mk l o f2 g2).getObscuration = o
    ∧ (SBExponential.mk r f1 g1).copy.getScaleRadius
        = (SBExponential.mk r f1 g1).getScaleRadius
    ∧ (SBAiry.mk l o f2 g2).copy.getLamOverD
        = (SBAiry.mk l o f2 g2).getLamOverD
    ∧ (SBAiry.mk l o f2 g2).copy.getObscuration
        = (SBAiry.mk l o f2 g2).getObscuration :=
  ⟨rfl, rfl, rfl, rfl, rfl, rfl⟩

theorem xValue_fluxOnly (p : SBProfile) (k : ℚ) (q : Pos) :
    (SBProfile.transform p (AffineMap.fluxOnly k)).xValue q = k * p.xValue q := by
  simp only [SBProfile.xValue, AffineMap.fluxOnly, AffineMap.absdet,
    AffineMap.det, AffineMap.inv]
  norm_num

/-- Claim C4: drawing the separable chromatic object `profile * SED`
through a bandpass produces the image of the bare profile scaled pixelwise
by the scalar flux factor ∫ SED·bandpass dλ taken over the overlap
interval [max(blue_limits), min(red_limits)]. -/
theorem chromatic_separable_draw (p : SBProfile) (s : SED) (b : Bandpass)
    (scale : ℚ) (nq nx ny : ℕ) :
    drawChromatic (chromaticMultiply p s) b scale nq nx ny
      = scaleImage (integrateProduct s.f b.throughput
          (max s.blue_limit b.blue_limit) (min s.red_limit b.red_limit) nq)
          (drawImage p scale nx ny)
    ∧ sedBandpassFlux s b nq
      = integrateProduct s.f b.throughput
          (max s.blue_limit b.blue_limit) (min s.red_limit b.red_limit) nq := by
  refine ⟨?_, rfl⟩
  simp only [drawChromatic, chromaticMultiply, scaleImage, drawImage,
    sedBandpassFlux, List.map_map]
  refine List.map_congr_left fun j _ => ?_
  simp only [Function.comp_apply, List.map_map]
  refine List.map_congr_left fun i _ => ?_
  simp only [Function.comp_apply]
  rw [xValue_fluxOnly]
  ring

theorem AffineMap.det_compose (t2 t1 : AffineMap) :
    (t2.compose t1).det = t2.det * t1.det := by
  simp only [AffineMap.compose, AffineMap.det]
  ring

theorem AffineMap.absdet_compose (t2 t1 : AffineMap) :
    (t2.compose t1).absdet = t2.absdet * t1.absdet := by
  simp only [AffineMap.absdet, AffineMap.det_compose, abs_mul]

theorem AffineMap.compose_assoc (t3 t2 t1 : AffineMap) :
    (t3.compose t2).compose t1 = t3.compose (t2.compose t1) := by
  simp only [AffineMap.compose, AffineMap.mk.injEq]
  refine ⟨?_, ?_, ?_, ?_, ?_, ?_, ?_⟩ <;> ring

theorem AffineMap.pullback_compose (t2 t1 : AffineMap) (h1 : t1.det ≠ 0)
    (h2 : t2.det ≠ 0) (p : Pos) :
    (t2.compose t1).inv ⟨p.x - (t2.compose t1).dx, p.y - (t2.compose t1).dy⟩
      = t1.inv ⟨(t2.inv ⟨p.x - t2.dx, p.y - t2.dy⟩).x - t1.dx,
                (t2.inv ⟨p.x - t2.dx, p.y - t2.dy⟩).y - t1.dy⟩ := by
  have h1' : t1.mA * t1.mD - t1.mB * t1.mC ≠ 0 := by
    simpa [AffineMap.det] using h1
  have h2' : t2.mA * t2.mD - t2.mB * t2.mC ≠ 0 := by
    simpa [AffineMap.det] using h2
  have hc' : (t2.mA * t1.mA + t2.mB * t1.mC) * (t2.mC * t1.mB + t2.mD * t1.mD)
      - (t2.mA * t1.mB + t2.mB * t1.mD) * (t2.mC * t1.mA + t2.mD * t1.mC) ≠ 0 := by
    have key : (t2.mA * t1.mA + t2.mB * t1.mC) * (t2.mC * t1.mB + t2.mD * t1.mD)
        - (t2.mA * t1.mB + t2.mB * t1.mD) * (t2.mC * t1.mA + t2.mD * t1.mC)
        = (t2.mA * t2.mD - t2.mB * t2.mC) * (t1.mA * t1.mD - t1.mB * t1.mC) := by
      ring
    rw [key]
    exact mul_ne_zero h2' h1'
  simp only [AffineMap.inv, AffineMap.compose, AffineMap.det, Pos.mk.injEq]
  constructor <;> (field_simp; ring)

theorem xValue_transform_transform (p : SBProfile) (t1 t2 : AffineMap)
    (h1 : t1.det ≠ 0) (h2 : t2.det ≠ 0) (q : Pos) :
    (SBProfile.transform (.transform p t1) t2).xValue q
      = (SBProfile.transform p (t2.compose t1)).xValue q := by
  simp only [SBProfile.xValue]
  rw [AffineMap.pullback_compose t2 t1 h1 h2 q, AffineMap.absdet_compose]
  have hfs : (t2.compose t1).fluxScale = t2.fluxScale * t1.fluxScale := rfl
  rw [hfs]
  ring

/-- Claim C7: nested transformations compose by combining the matrix,
offset and flux factors rather than wrapping a new node around the old
one, and for invertible maps the nested transformation renders the same
image as the single transformation by the composed map. -/
theorem transform_compose (p : SBProfile) (t1 t2 : AffineMap) (scale : ℚ)
    (nx ny : ℕ) (h1 : t1.det ≠ 0) (h2 : t2.det ≠ 0) :
    (p.applyTransform t1).applyTransform t2 = p.applyTransform (t2.compose t1)
    ∧ drawImage (.transform (.transform p t1) t2) scale nx ny
      = drawImage (.transform p (t2.compose t1)) scale nx ny := by
  constructor
  · cases p <;> simp [SBProfile.applyTransform, AffineMap.compose_assoc]
  · simp only [drawImage]
    refine List.map_congr_left fun j _ => ?_
    refine List.map_congr_left fun i _ => ?_
    rw [xValue_transform_transform p t1 t2 h1 h2]

/-- Witness for C7: a concrete shear composed with a concrete scaling,
applied to a concrete primitive, renders identically whether nested or
composed. -/
theorem transform_compose_witness :
    drawImage (.transform (.transform
        (.prim (.gaussian 1) (fun _ => 1) 9 1 defaultGSParams)
        ⟨2, 0, 0, 3, 1, 0, 1⟩) ⟨1, 1, 0, 1, 0, 2, 5⟩) 1 2 2
      = drawImage (.transform
        (.prim (.gaussian 1) (fun _ => 1) 9 1 defaultGSParams)
        (AffineMap.compose ⟨1, 1, 0, 1, 0, 2, 5⟩ ⟨2, 0, 0, 3, 1, 0, 1⟩)) 1 2 2 :=
  (transform_compose (.prim (.gaussian 1) (fun _ => 1) 9 1 defaultGSParams)
    ⟨2, 0, 0, 3, 1, 0, 1⟩ ⟨1, 1, 0, 1, 0, 2, 5⟩ 1 2 2
    (by norm_num [AffineMap.det]) (by norm_num [AffineMap.det])).2

mutual

theorem findInvalid_correct : ∀ (p : SBProfile) (path : List ℕ) (s : Shape),
    findInvalid p = some (path, s) →
    nodeShapeAt p path = some s ∧ s.inDomain = false
  | .prim s0 radial maxR flux g, path, s => by
      intro h
      simp only [findInvalid] at h
      by_cases hd : s0.inDomain = true
      · simp [hd] at h
      · rw [if_neg hd] at h
        simp only [Option.some.injEq, Prod.mk.injEq] at h
        obtain ⟨hp, hs⟩ := h
        subst hp
        subst hs
        exact ⟨by simp [nodeShapeAt], by simpa using hd⟩
  | .sum cs, path, s => by
      intro h
      simp only [findInvalid, Option.map_eq_some'] at h
      obtain ⟨⟨i, p', s'⟩, hr, heq⟩ := h
      simp only [Prod.mk.injEq] at heq
      obtain ⟨hp, hs⟩ := heq
      subst hp
      subst hs
      have := findInvalidList_correct cs i p' s' hr
      exact ⟨by simpa [nodeShapeAt] using this.1, this.2⟩
  | .conv cs, path, s => by
      intro h
      simp only [findInvalid, Option.map_eq_some'] at h
      obtain ⟨⟨i, p', s'⟩, hr, heq⟩ := h
      simp only [Prod.mk.injEq] at heq
      obtain ⟨hp, hs⟩ := heq
      subst hp
      subst hs
      have := findInvalidList_correct cs i p' s' hr
      exact ⟨by simpa [nodeShapeAt] using this.1, this.2⟩
  | .transform c t, path, s => by
      intro h
      simp only [findInvalid, Option.map_eq_some'] at h
      obtain ⟨⟨p', s'⟩, hr, heq⟩ := h
      simp only [Prod.mk.injEq] at heq
      obtain ⟨hp, hs⟩ := heq
      subst hp
      subst hs
      have := findInvalid_correct c p' s' hr
      exact ⟨by simpa [nodeShapeAt] using this.1, this.2⟩

theorem findInvalidList_correct : ∀ (cs : List SBProfile) (i : ℕ)
    (path : List ℕ) (s : Shape),
    findInvalidList cs = some (i, path, s) →
    nodeShapeAtList cs i path = some s ∧ s.inDomain = false
  | [], i, path, s => by
      intro h
      simp [findInvalidList] at h
  | c :: cs, i, path, s => by
      intro h
      simp only [findInvalidList] at h
      rcases hfc : findInvalid c with _ | ⟨p', s'⟩
      · rw [hfc] at h
        simp only [Option.map_eq_some'] at h
        obtain ⟨⟨i0, p0, s0⟩, hr, heq⟩ := h
        simp only [Prod.mk.injEq] at heq
        obtain ⟨hi, hp, hs⟩ := heq
        subst hi
        subst hp
        subst hs
        have := findInvalidList_correct cs i0 p0 s0 hr
        exact ⟨by simpa [nodeShapeAtList] using this.1, this.2⟩
      · rw [hfc] at h
        simp only [Option.some.injEq, Prod.mk.injEq] at h
        obtain ⟨hi, hp, hs⟩ := h
        subst hi
        subst hp
        subst hs
        have := findInvalid_correct c p' s' hfc
        exact ⟨by simpa [nodeShapeAtList] using this.1, this.2⟩

end

/-- Claim C5: a draw call that fails leaves the caller-provided output
buffer unmodified — equal to its state before the call — and raises a
typed error whose path identifies an out-of-domain primitive actually
present at that path of the profile tree. -/
theorem draw_error_atomicity (p : SBProfile) (scale : ℚ) (buf : Image)
    (e : DrawError) (h : (draw p scale buf).2 = some e) :
    (draw p scale buf).1 = buf
    ∧ nodeShapeAt p e.path = some e.shape
    ∧ e.shape.inDomain = false := by
  rcases hf : findInvalid p with _ | ⟨path, s⟩
  · rw [draw, hf] at h
    simp at h
  · rw [draw, hf] at h
    simp only [Option.some.injEq] at h
    subst h
    have hc := findInvalid_correct p path s hf
    refine ⟨?_, hc.1, hc.2⟩
    rw [draw, hf]

/-- Witness for C5: drawing a Sum whose second child is a Sersic primitive
with index −1 returns the 2×2 buffer untouched together with an error
naming path [1] and that out-of-domain shape. -/
theorem draw_error_atomicity_witness :
    (draw (.sum [.prim (.exponential 1) (fun _ => 0) 1 1 defaultGSParams,
                 .prim (.sersic (-1) 1) (fun _ => 0) 1 1 defaultGSParams])
        1 [[0, 0], [0, 0]]).1 = [[0, 0], [0, 0]]
    ∧ nodeShapeAt (.sum [.prim (.exponential 1) (fun _ => 0) 1 1 defaultGSParams,
                 .prim (.sersic (-1) 1) (fun _ => 0) 1 1 defaultGSParams]) [1]
        = some (.sersic (-1) 1)
    ∧ Shape.inDomain (.sersic (-1) 1) = false :=
  draw_error_atomicity
    (.sum [.prim (.exponential 1) (fun _ => 0) 1 1 defaultGSParams,
           .prim (.sersic (-1) 1) (fun _ => 0) 1 1 defaultGSParams])
    1 [[0, 0], [0, 0]] ⟨[1], .sersic (-1) 1⟩ (by rfl)

theorem interpLinear_nonneg : ∀ (rows : List (ℚ × ℚ)),
    strictlyIncreasingFst rows = true → allNonnegSnd rows = true →
    ∀ x : ℚ, frontX rows ≤ x → 0 ≤ interpLinear rows x
  | [], _, _, x, _ => by simp [interpLinear]
  | [r], _, h2, x, _ => by
      simp only [interpLinear]
      simp only [allNonnegSnd, List.all_cons, List.all_nil, Bool.and_true,
        decide_eq_true_eq] at h2
      exact h2
  | r0 :: r1 :: rest, h1, h2, x, hx => by
      simp only [strictlyIncreasingFst, Bool.and_eq_true, decide_eq_true_eq] at h1
      obtain ⟨hlt, h1'⟩ := h1
      simp only [allNonnegSnd, List.all_cons, Bool.and_eq_true,
        decide_eq_true_eq] at h2
      obtain ⟨hy0, hy1, _⟩ := h2
      have h2' : allNonnegSnd (r1 :: rest) = true := by
        simp only [allNonnegSnd, List.all_cons, Bool.and_eq_true,
          decide_eq_true_eq] at *
        tauto
      simp only [interpLinear]
      by_cases hle : x ≤ r1.1
      · rw [if_pos hle]
        have hx0 : r0.1 ≤ x := by simpa [frontX] using hx
        have hne : r1.1 - r0.1 ≠ 0 := sub_ne_zero.mpr (ne_of_gt hlt)
        have key : r0.2 + (r1.2 - r0.2) * (x - r0.1) / (r1.1 - r0.1)
            = (r0.2 * (r1.1 - x) + r1.2 * (x - r0.1)) / (r1.1 - r0.1) := by
          field_simp
          ring
        rw [key]
        apply div_nonneg
        · have ha : 0 ≤ r0.2 * (r1.1 - x) := mul_nonneg hy0 (by linarith)
          have hb : 0 ≤ r1.2 * (x - r0.1) := mul_nonneg hy1 (by linarith)
          linarith
        · linarith
      · rw [if_neg hle]
        exact interpLinear_nonneg (r1 :: rest) h1' h2' x
          (by simp only [frontX]; linarith)

set_option maxRecDepth 10000 in
/-- Claim C8: the tabulated SED input CWW_Sbc_ext.sed has strictly
increasing wavelength in every consecutive pair of rows and non-negative
flux in every row; a Numeric Table (ordered, monotonic in x) is therefore
constructed from it successfully, and the tabulated SED it defines is
non-negative over its whole defined domain under linear interpolation. -/
theorem cww_table_invariants :
    strictlyIncreasingFst cww_sbc_ext_rows = true
    ∧ allNonnegSnd cww_sbc_ext_rows = true
    ∧ (mkTable cww_sbc_ext_rows).isSome = true
    ∧ ∀ x : ℚ, frontX cww_sbc_ext_rows ≤ x →
        0 ≤ interpLinear cww_sbc_ext_rows x := by
  have h1 : strictlyIncreasingFst cww_sbc_ext_rows = true := by decide
  have h2 : allNonnegSnd cww_sbc_ext_rows = true := by decide
  refine ⟨h1, h2, ?_, ?_⟩
  · simp [mkTable, h1]
  · intro x hx
    exact interpLinear_nonneg cww_sbc_ext_rows h1 h2 x hx

/-- Witness for C8: the interpolated SED value at 1000 Angstroms (inside
the defined domain, which starts at 91 Angstroms) is non-negative. -/
theorem cww_table_invariants_witness :
    (91 : ℚ) ≤ 1000 ∧ 0 ≤ interpLinear cww_sbc_ext_rows 1000 :=
  ⟨by norm_num, cww_table_invariants.2.2.2 1000 (by decide)⟩

end GalSim
